import Mathlib

/-!
Verification of the reference-resolution and record-synchronization layer of
the aha-mcp server (src/handlers.ts, src/types.ts).

The embedding models each handler as a pure function of its arguments and of
an oracle describing the backend (the GraphQL client or the REST fetch).
Thrown JavaScript values are modelled by `JsThrow`, tool-protocol errors by
`McpError`, and every handler returns an `Except McpError` result together
with (where a claim needs it) the list of backend requests actually issued.
-/

set_option maxRecDepth 4000

/-- Codes of the tool-protocol error type (McpError in the SDK). -/
inductive McpErrorCode where
  | InvalidParams
  | InternalError
  | InvalidRequest
  | MethodNotFound
deriving DecidableEq, Repr

/-- The tool-protocol structured error shape (class McpError). -/
structure McpError where
  code : McpErrorCode
  message : String
deriving DecidableEq, Repr

/-- A thrown JavaScript value, as discriminated by the catch blocks in
handlers.ts: an `McpError` instance, an `Error` instance (carrying a
message), or any other value (whose `String(error)` rendering is kept). -/
inductive JsThrow where
  | mcp (e : McpError)
  | jsError (message : String)
  | other (rendered : String)
deriving DecidableEq, Repr

/-- Character class `[A-Z]` of the reference regexes in src/types.ts. -/
def isUpperAZ (c : Char) : Bool := 'A' ≤ c && c ≤ 'Z'

/-- Character class `\d` (`[0-9]`). -/
def isDigit09 (c : Char) : Bool := '0' ≤ c && c ≤ '9'

/-- Character class `[A-Z0-9]`. -/
def isUpperAlnum (c : Char) : Bool := isUpperAZ c || isDigit09 c

/-- `\d+$`: the remaining characters form a non-empty digit run. -/
def digits1 (l : List Char) : Bool := !l.isEmpty && l.all isDigit09

/-- Shared front of all three reference regexes: consume `([A-Z][A-Z0-9]*)`
and return the remaining characters.  Because the prefix characters exclude
the separator `-`, the greedy (maximal) run is the only split any of the
three regexes can use, so this deterministic scan is faithful to the
backtracking regex semantics. -/
def refStart : List Char → Option (List Char)
  | [] => none
  | c :: cs => if isUpperAZ c then some (cs.dropWhile isUpperAlnum) else none

/-- Tail `-(\d+)$` of FEATURE_REF_REGEX after the shared front. -/
def featureTail : List Char → Bool
  | c :: t => c == '-' && digits1 t
  | [] => false

/-- Tail `-(\d+)-(\d+)$` of REQUIREMENT_REF_REGEX after the shared front. -/
def requirementTail : List Char → Bool
  | c :: t =>
      c == '-' && !(t.takeWhile isDigit09).isEmpty &&
        (match t.dropWhile isDigit09 with
          | c2 :: t2 => c2 == '-' && digits1 t2
          | [] => false)
  | [] => false

/-- Tail `-N-(\d+)$` of NOTE_REF_REGEX after the shared front. -/
def noteTail : List Char → Bool
  | c1 :: c2 :: c3 :: t => c1 == '-' && c2 == 'N' && c3 == '-' && digits1 t
  | _ => false

/-- `FEATURE_REF_REGEX.test`: `^([A-Z][A-Z0-9]*)-(\d+)$`. -/
def featureRefTest (s : String) : Bool :=
  match refStart s.data with
  | some r => featureTail r
  | none => false

/-- `REQUIREMENT_REF_REGEX.test`: `^([A-Z][A-Z0-9]*)-(\d+)-(\d+)$`. -/
def requirementRefTest (s : String) : Bool :=
  match refStart s.data with
  | some r => requirementTail r
  | none => false

/-- `NOTE_REF_REGEX.test`: `^([A-Z][A-Z0-9]*)-N-(\d+)$`. -/
def noteRefTest (s : String) : Bool :=
  match refStart s.data with
  | some r => noteTail r
  | none => false

/-- How many of the three reference patterns match the given string. -/
def matchCount (s : String) : Nat :=
  (cond (featureRefTest s) 1 0) + (cond (requirementRefTest s) 1 0) +
    (cond (noteRefTest s) 1 0)

/-- JavaScript truthiness of an optional string argument: absent (undefined)
and the empty string are both falsy. -/
def optTruthy : Option String → Bool
  | none => false
  | some s => !(s == "")

/-- The catch block shared (textually repeated) by every handler in
handlers.ts: an McpError is rethrown unchanged; any other thrown value is
wrapped into an InternalError whose message is the operation prefix followed
by the original message (`error.message` for Error instances,
`String(error)` otherwise). -/
def catchToMcp (pfx : String) (t : JsThrow) : McpError :=
  match t with
  | JsThrow.mcp e => e
  | JsThrow.jsError m => ⟨McpErrorCode.InternalError, pfx ++ m⟩
  | JsThrow.other s => ⟨McpErrorCode.InternalError, pfx ++ s⟩

/-- The GraphQL queries handleGetRecord can issue. -/
inductive GqlQuery where
  | getFeature (id : String)
  | getRequirement (id : String)
deriving DecidableEq, Repr

/-- Text returned by handleGetRecord once the query has answered: the
serialized record, or the descriptive not-found text when the record field
of the response is null or absent. -/
def renderRecordText (ref : String) (result : Option String) : String :=
  match result with
  | none => "No record found for reference " ++ ref
  | some s => s

/-- handleGetRecord (src/handlers.ts).  The GraphQL client is an oracle
from the issued query to either a thrown value or the record field of the
response (serialized; `none` when null/absent).  Returns the handler
outcome together with the list of queries actually issued. -/
def handleGetRecord (client : GqlQuery → Except JsThrow (Option String))
    (reference : Option String) : Except McpError String × List GqlQuery :=
  if !(optTruthy reference) then
    (Except.error ⟨McpErrorCode.InvalidParams, "Reference number is required"⟩, [])
  else
    let ref := reference.getD ""
    if featureRefTest ref then
      match client (GqlQuery.getFeature ref) with
      | Except.error t =>
          (Except.error (catchToMcp "Failed to fetch record: " t), [GqlQuery.getFeature ref])
      | Except.ok result =>
          (Except.ok (renderRecordText ref result), [GqlQuery.getFeature ref])
    else if requirementRefTest ref then
      match client (GqlQuery.getRequirement ref) with
      | Except.error t =>
          (Except.error (catchToMcp "Failed to fetch record: " t), [GqlQuery.getRequirement ref])
      | Except.ok result =>
          (Except.ok (renderRecordText ref result), [GqlQuery.getRequirement ref])
    else
      (Except.error ⟨McpErrorCode.InvalidParams,
        "Invalid reference number format. Expected DEVELOP-123 or ADT-123-1"⟩, [])

/-- handleGetPage (src/handlers.ts).  The client oracle takes the page
reference and the includeParent flag. -/
def handleGetPage (client : String → Bool → Except JsThrow (Option String))
    (reference : Option String) (includeParent : Option Bool) : Except McpError String :=
  if !(optTruthy reference) then
    Except.error ⟨McpErrorCode.InvalidParams, "Reference number is required"⟩
  else
    let ref := reference.getD ""
    if !(noteRefTest ref) then
      Except.error ⟨McpErrorCode.InvalidParams,
        "Invalid reference number format. Expected ABC-N-213"⟩
    else
      match client ref (includeParent.getD false) with
      | Except.error t => Except.error (catchToMcp "Failed to fetch page: " t)
      | Except.ok none => Except.ok ("No page found for reference " ++ ref)
      | Except.ok (some s) => Except.ok s

/-- handleSearchDocuments (src/handlers.ts).  The client oracle takes the
query string and the searchableType list; its answer is the serialized
searchDocuments payload. -/
def handleSearchDocuments (client : String → List String → Except JsThrow String)
    (query : Option String) (searchableType : Option String) : Except McpError String :=
  if !(optTruthy query) then
    Except.error ⟨McpErrorCode.InvalidParams, "Search query is required"⟩
  else
    match client (query.getD "") [searchableType.getD "Page"] with
    | Except.error t => Except.error (catchToMcp "Failed to search documents: " t)
    | Except.ok s => Except.ok s

/-- handleIntrospectFeature (src/handlers.ts). -/
def handleIntrospectFeature (client : Unit → Except JsThrow String) :
    Except McpError String :=
  match client () with
  | Except.error t => Except.error (catchToMcp "Failed to introspect: " t)
  | Except.ok s => Except.ok s

/-- Outcome of one `fetch` call against the REST API: a successful (ok)
response carrying a parsed JSON body, a non-ok response carrying status,
statusText and body text, or a thrown value. -/
inductive FetchResult (β : Type) where
  | success (body : β)
  | failure (status : Nat) (statusText : String) (bodyText : String)
  | thrown (t : JsThrow)

/-- The message of the Error thrown on a non-ok REST response:
`REST API error: status statusText`. -/
def restErrMsg (st : Nat) (sx : String) : String :=
  "REST API error: " ++ toString st ++ " " ++ sx

/-- handleGetRecordRest (src/handlers.ts).  The oracle takes the feature
reference. -/
def handleGetRecordRest (fetchOne : String → FetchResult String)
    (reference : Option String) : Except McpError String :=
  if !(optTruthy reference) then
    Except.error ⟨McpErrorCode.InvalidParams, "Reference number is required"⟩
  else
    match fetchOne (reference.getD "") with
    | FetchResult.success body => Except.ok body
    | FetchResult.failure st sx _ =>
        Except.error (catchToMcp "Failed to fetch record via REST: "
          (JsThrow.jsError (restErrMsg st sx)))
    | FetchResult.thrown t =>
        Except.error (catchToMcp "Failed to fetch record via REST: " t)

/-- The fixed set of standard field names of handleUpdateFeature
(src/handlers.ts, standardFieldNames). -/
def standardFieldNames : List String :=
  ["name", "workflow_kind", "workflow_status", "release", "description",
   "created_by", "assigned_to_user", "tags",
   "initial_estimate_text", "detailed_estimate_text", "remaining_estimate_text",
   "initial_estimate", "detailed_estimate", "remaining_estimate",
   "start_date", "due_date", "release_phase", "initiative", "epic",
   "progress_source", "progress", "team", "team_workflow_status",
   "iteration", "program_increment"]

/-- The body of the PUT mutation of handleUpdateFeature:
`{feature: {...standardFields}}`, with key `custom_fields` added only when
the custom-field mapping is non-empty (`none` models the absent key). -/
structure FeatureBody where
  standard : List (String × String)
  custom_fields : Option (List (String × String))
deriving DecidableEq, Repr

/-- The partition-and-assemble step of handleUpdateFeature: iterate the
field entries, sending keys in standardFieldNames to standardFields and all
others to customFields, then embed customFields under `custom_fields` only
if non-empty.  Fields mappings are association lists in object iteration
order (object keys are unique). -/
def buildFeatureBody (fields : List (String × String)) : FeatureBody :=
  let standardFields := fields.filter (fun kv => standardFieldNames.contains kv.1)
  let customFields := fields.filter (fun kv => !(standardFieldNames.contains kv.1))
  { standard := standardFields,
    custom_fields := if customFields.isEmpty then none else some customFields }

/-- The PUT request issued by handleUpdateFeature. -/
structure UpdateFeatureRequest where
  reference : String
  body : FeatureBody
deriving DecidableEq, Repr

/-- handleUpdateFeature (src/handlers.ts).  Returns the outcome and the
list of REST requests actually issued. -/
def handleUpdateFeature (fetchU : UpdateFeatureRequest → FetchResult String)
    (reference : Option String) (fields : Option (List (String × String))) :
    Except McpError String × List UpdateFeatureRequest :=
  if !(optTruthy reference) then
    (Except.error ⟨McpErrorCode.InvalidParams, "Reference number is required"⟩, [])
  else
    match fields with
    | none =>
        (Except.error ⟨McpErrorCode.InvalidParams,
          "Fields object is required with at least one field to update"⟩, [])
    | some fs =>
      if fs.isEmpty then
        (Except.error ⟨McpErrorCode.InvalidParams,
          "Fields object is required with at least one field to update"⟩, [])
      else
        let req : UpdateFeatureRequest := ⟨reference.getD "", buildFeatureBody fs⟩
        match fetchU req with
        | FetchResult.success body => (Except.ok body, [req])
        | FetchResult.failure st sx bd =>
            (Except.error (catchToMcp "Failed to update feature: "
              (JsThrow.jsError (restErrMsg st sx ++ " - " ++ bd))), [req])
        | FetchResult.thrown t =>
            (Except.error (catchToMcp "Failed to update feature: " t), [req])

/-- One page of a paginated REST collection response: the item array under
the collection key (absent when the response lacks it) and the pagination
object (`none` when absent; the inner option is the total_pages field). -/
structure RestPage (α : Type) where
  items : Option (List α)
  pagination : Option (Option Nat)

/-- `data.pagination.total_pages || 1`: a missing or zero total_pages
yields 1. -/
def jsOrOne : Option Nat → Nat
  | some (n + 1) => n + 1
  | _ => 1

/-- The pagination while-loop shared by handleListFeaturesInRelease and the
two loops of handleListReleases: while currentPage ≤ totalPages, fetch the
current page; on a non-ok response or a thrown value the loop aborts with
that error; otherwise append the item array (if present) to the
accumulator, update totalPages from the pagination object if present, and
continue with the next page.  `fuel` bounds the number of iterations the
model will unfold (the source loop has no such bound and may diverge);
`none` means the bound was hit.  The returned list of page numbers records
the fetches actually issued. -/
def pageLoop {α : Type} (fetch : Nat → FetchResult (RestPage α)) :
    Nat → Nat → Nat → List α → List Nat →
    Option (Except JsThrow (List α) × List Nat)
  | 0, _, _, _, _ => none
  | fuel + 1, currentPage, totalPages, acc, trace =>
    if currentPage ≤ totalPages then
      match fetch currentPage with
      | FetchResult.thrown t => some (Except.error t, trace ++ [currentPage])
      | FetchResult.failure st sx _ =>
          some (Except.error (JsThrow.jsError (restErrMsg st sx)), trace ++ [currentPage])
      | FetchResult.success body =>
          pageLoop fetch fuel (currentPage + 1)
            (match body.pagination with
              | none => totalPages
              | some p => jsOrOne p)
            (acc ++ body.items.getD []) (trace ++ [currentPage])
    else some (Except.ok acc, trace)

/-- The success payload of handleListFeaturesInRelease:
`{total_count, features}`. -/
structure ListFeaturesResult where
  total_count : Nat
  features : List String
deriving DecidableEq, Repr

/-- handleListFeaturesInRelease (src/handlers.ts).  The fetch oracle takes
the page number and the per_page value of the request URL.  Returns the
outcome and the list of page numbers fetched. -/
def handleListFeaturesInRelease (fetchF : Nat → Nat → FetchResult (RestPage String))
    (releaseReference : Option String) (perPage : Option Nat) (fuel : Nat) :
    Option (Except McpError ListFeaturesResult × List Nat) :=
  if !(optTruthy releaseReference) then
    some (Except.error ⟨McpErrorCode.InvalidParams,
      "Release reference is required (e.g., ACT-R-14 or ACTIVATION-R-14)"⟩, [])
  else
    let pp := perPage.getD 100
    match pageLoop (fun p => fetchF p pp) fuel 1 1 [] [] with
    | none => none
    | some (Except.ok allFeatures, tr) =>
        some (Except.ok ⟨allFeatures.length, allFeatures⟩, tr)
    | some (Except.error t, tr) =>
        some (Except.error (catchToMcp "Failed to list features in release: " t), tr)

/-- A product entry as read by handleListReleases (id, reference_prefix,
name); reference_prefix may be absent. -/
structure Product where
  id : String
  referencePfx : Option String
  name : String
deriving DecidableEq, Repr

/-- A release entry as read and projected by handleListReleases. -/
structure ReleaseObj where
  reference_num : Option String
  name : Option String
  start_date : Option String
  release_date : Option String
  parking_lot : Option Bool
  url : Option String
deriving DecidableEq, Repr

/-- `p.reference_prefix?.toLowerCase() === workspacePrefix.toLowerCase()`:
absent reference_prefix never matches. -/
def pfxMatches (p : Product) (wp : String) : Bool :=
  match p.referencePfx with
  | none => false
  | some s => s.toLower == wp.toLower

/-- `r.name?.toLowerCase().includes(searchName)`: absent name never
matches; otherwise case-insensitive substring containment. -/
def nameIncludes (rn : Option String) (searchName : String) : Bool :=
  match rn with
  | none => false
  | some s => decide (searchName.data <:+: s.toLower.data)

/-- The workspace-not-found text of handleListReleases, enumerating the
known reference prefixes (JavaScript Array.join renders an absent prefix
as the empty string; an empty join falls back to the literal none). -/
def noWorkspaceText (wp : String) (allProducts : List Product) : String :=
  let joined := String.intercalate ", "
    (allProducts.map (fun p => (p.referencePfx).getD ""))
  "No workspace found with prefix \"" ++ wp ++ "\". Available workspaces: " ++
    (if joined == "" then "none" else joined)

/-- The success payload of handleListReleases. -/
structure ListReleasesOk where
  wsPfx : Option String
  wsName : String
  wsId : String
  total_count : Nat
  releases : List ReleaseObj
deriving DecidableEq, Repr

/-- The two non-error results of handleListReleases: the workspace-not-found
text, or the workspace header with the filtered releases. -/
inductive ListReleasesResult where
  | noWorkspace (text : String)
  | listing (r : ListReleasesOk)
deriving DecidableEq, Repr

/-- handleListReleases (src/handlers.ts).  `fetchP` is the products
pagination oracle; `fetchR id` the releases pagination oracle for the
resolved product id.  Returns the outcome, the product pages fetched and
the release pages fetched. -/
def handleListReleases (fetchP : Nat → FetchResult (RestPage Product))
    (fetchR : String → Nat → FetchResult (RestPage ReleaseObj))
    (wsPfx0 : Option String) (name : Option String) (fuel : Nat) :
    Option (Except McpError ListReleasesResult × List Nat × List Nat) :=
  if !(optTruthy wsPfx0) then
    some (Except.error ⟨McpErrorCode.InvalidParams,
      "Workspace prefix is required (e.g., ACT, ACTIVATION, DEVELOP)"⟩, [], [])
  else
    let wp := wsPfx0.getD ""
    match pageLoop fetchP fuel 1 1 [] [] with
    | none => none
    | some (Except.error t, trP) =>
        some (Except.error (catchToMcp "Failed to list releases: " t), trP, [])
    | some (Except.ok allProducts, trP) =>
      match allProducts.find? (fun p => pfxMatches p wp) with
      | none =>
          some (Except.ok (ListReleasesResult.noWorkspace (noWorkspaceText wp allProducts)),
            trP, [])
      | some product =>
        match pageLoop (fetchR product.id) fuel 1 1 [] [] with
        | none => none
        | some (Except.error t, trR) =>
            some (Except.error (catchToMcp "Failed to list releases: " t), trP, trR)
        | some (Except.ok allReleases, trR) =>
          let filteredReleases :=
            match name with
            | none => allReleases
            | some n =>
              if n == "" then allReleases
              else allReleases.filter (fun r => nameIncludes r.name n.toLower)
          some (Except.ok (ListReleasesResult.listing
            ⟨product.referencePfx, product.name, product.id,
              filteredReleases.length, filteredReleases⟩), trP, trR)

/-- The PUT request of the update_release operation. -/
structure UpdateReleaseRequest where
  method : String
  path : String
  body : List (String × String)
deriving DecidableEq, Repr

/-- The success payload `{message, release}` of update_release. -/
structure UpdateReleaseResult where
  message : String
  release : String
deriving DecidableEq, Repr

/-- Modelled from the spec: the handleUpdateRelease implementation is not
among the repository sources here (only its test suite is), so this
definition follows the specification: validate that the release reference
and a non-empty fields mapping are present (failing with InvalidArgument
otherwise, before any network call), issue a PUT to
/api/v1/releases/{reference} with JSON body `{release: {...fields}}`, and
on success return `{message, release}`. -/
def handleUpdateRelease (fetchR : UpdateReleaseRequest → FetchResult String)
    (reference : Option String) (fields : Option (List (String × String))) :
    Except McpError UpdateReleaseResult × List UpdateReleaseRequest :=
  if !(optTruthy reference) then
    (Except.error ⟨McpErrorCode.InvalidParams, "Release reference number is required"⟩, [])
  else
    match fields with
    | none =>
        (Except.error ⟨McpErrorCode.InvalidParams,
          "Fields object is required with at least one field to update"⟩, [])
    | some fs =>
      if fs.isEmpty then
        (Except.error ⟨McpErrorCode.InvalidParams,
          "Fields object is required with at least one field to update"⟩, [])
      else
        let req : UpdateReleaseRequest :=
          ⟨"PUT", "/api/v1/releases/" ++ reference.getD "", fs⟩
        match fetchR req with
        | FetchResult.success body =>
            (Except.ok ⟨"Release updated successfully", body⟩, [req])
        | FetchResult.failure st sx bd =>
            (Except.error (catchToMcp "Failed to update release: "
              (JsThrow.jsError (restErrMsg st sx ++ " - " ++ bd))), [req])
        | FetchResult.thrown t =>
            (Except.error (catchToMcp "Failed to update release: " t), [req])

/-- Number of items carried by one fetch outcome (zero when the response is
not a success or lacks the item array). -/
def pageItems {α : Type} : FetchResult (RestPage α) → Nat
  | FetchResult.success b => (b.items.getD []).length
  | _ => 0

/-- A backend whose every page response declares total_pages 3 and carries
one item. -/
def backend333 : Nat → Nat → FetchResult (RestPage String) :=
  fun _ _ => FetchResult.success ⟨some ["x"], some (some 3)⟩

/-- A backend declaring total_pages 3 on page 1 and omitting the pagination
object entirely on every later page. -/
def backendOmitPag : Nat → Nat → FetchResult (RestPage String) :=
  fun p _ =>
    if p = 1 then FetchResult.success ⟨some ["a"], some (some 3)⟩
    else FetchResult.success ⟨some ["b"], none⟩

/-- A backend whose first page succeeds (declaring 3 total pages) and whose
second page answers a non-success HTTP status. -/
def backendFailPage2 : Nat → Nat → FetchResult (RestPage String) :=
  fun p _ =>
    if p = 1 then FetchResult.success ⟨some ["a"], some (some 3)⟩
    else FetchResult.failure 500 "Internal Server Error" ""

/-- Observational equivalence of two fetch outcomes as far as the
pagination loop can distinguish them: same kind, same status data, same
pagination object, and item arrays that agree once a missing array is read
as empty. -/
def respEquiv {α : Type} : FetchResult (RestPage α) → FetchResult (RestPage α) → Prop
  | FetchResult.success b1, FetchResult.success b2 =>
      b1.items.getD [] = b2.items.getD [] ∧ b1.pagination = b2.pagination
  | FetchResult.failure st1 sx1 bd1, FetchResult.failure st2 sx2 bd2 =>
      st1 = st2 ∧ sx1 = sx2 ∧ bd1 = bd2
  | FetchResult.thrown t1, FetchResult.thrown t2 => t1 = t2
  | _, _ => False

example : featureRefTest "PROJ-1" = true := by decide

example : featureRefTest "proj-1" = false := by decide

example : featureRefTest "PROJ-1-1" = false := by decide

example : requirementRefTest "PROJ-1-1" = true := by decide

example : requirementRefTest "ACT-100-50" = true := by decide

example : requirementRefTest "PROJ-1-1-1" = false := by decide

example : noteRefTest "DOC-N-1" = true := by decide

example : noteRefTest "PROJ-NN-1" = false := by decide

example : noteRefTest "PROJ-n-1" = false := by decide

example : featureRefTest "A1B2C3-789" = true := by decide

example : featureRefTest "PROJ--1" = false := by decide

example : matchCount "PROJ-1" = 1 := by decide

example : matchCount "PROJ-N-7" = 1 := by decide

theorem all_digits_dropWhile_nil (l : List Char) (h : l.all isDigit09 = true) :
    l.dropWhile isDigit09 = [] := by
  induction l with
  | nil => rfl
  | cons c cs ih =>
    simp only [List.all_cons, Bool.and_eq_true] at h
    simp [List.dropWhile_cons, h.1, ih h.2]

theorem featureTail_not_requirementTail (r : List Char) :
    ¬(featureTail r = true ∧ requirementTail r = true) := by
  rintro ⟨hf, hr⟩
  match r with
  | [] => simp [featureTail] at hf
  | c :: t =>
    simp only [featureTail, digits1, Bool.and_eq_true, Bool.not_eq_true',
      beq_iff_eq] at hf
    obtain ⟨-, -, hall⟩ := hf
    simp only [requirementTail, Bool.and_eq_true] at hr
    rw [all_digits_dropWhile_nil t hall] at hr
    simp at hr

theorem featureTail_not_noteTail (r : List Char) :
    ¬(featureTail r = true ∧ noteTail r = true) := by
  rintro ⟨hf, hn⟩
  rcases r with - | ⟨c1, - | ⟨c2, - | ⟨c3, t⟩⟩⟩
  · simp [noteTail] at hn
  · simp [noteTail] at hn
  · simp [noteTail] at hn
  · simp only [noteTail, Bool.and_eq_true, beq_iff_eq] at hn
    obtain ⟨⟨⟨-, hN⟩, -⟩, -⟩ := hn
    subst hN
    have hdN : isDigit09 'N' = false := by decide
    simp [featureTail, digits1, List.all_cons, hdN] at hf

theorem requirementTail_not_noteTail (r : List Char) :
    ¬(requirementTail r = true ∧ noteTail r = true) := by
  rintro ⟨hr, hn⟩
  rcases r with - | ⟨c1, - | ⟨c2, - | ⟨c3, t⟩⟩⟩
  · simp [noteTail] at hn
  · simp [noteTail] at hn
  · simp [noteTail] at hn
  · simp only [noteTail, Bool.and_eq_true, beq_iff_eq] at hn
    obtain ⟨⟨⟨-, hN⟩, -⟩, -⟩ := hn
    subst hN
    have hdN : isDigit09 'N' = false := by decide
    simp [requirementTail, List.takeWhile_cons, hdN] at hr

/-- Claim C2: the three reference patterns FEATURE_REF_REGEX,
REQUIREMENT_REF_REGEX and NOTE_REF_REGEX are pairwise disjoint — no string
is matched by more than one of them. -/
theorem C2_patterns_disjoint (s : String) : matchCount s ≤ 1 := by
  unfold matchCount featureRefTest requirementRefTest noteRefTest
  cases h : refStart s.data with
  | none => simp
  | some r =>
    have h1 := featureTail_not_requirementTail r
    have h2 := featureTail_not_noteTail r
    have h3 := requirementTail_not_noteTail r
    cases hf : featureTail r <;> cases hr : requirementTail r <;>
      cases hn : noteTail r <;> simp_all

/-- Claim C1: for every get_record call with a present (truthy) reference,
a Feature-pattern reference issues the feature query, otherwise a
Requirement-pattern reference issues the requirement query, otherwise an
InvalidParams error naming the expected formats is thrown with no backend
request; and an issued query answering with no record yields the
successful not-found text rather than an error. -/
theorem C1_getRecord_routing
    (client : GqlQuery → Except JsThrow (Option String)) (s : String)
    (hs : s ≠ "") :
    (featureRefTest s = true →
      (handleGetRecord client (some s)).2 = [GqlQuery.getFeature s]) ∧
    (featureRefTest s = false → requirementRefTest s = true →
      (handleGetRecord client (some s)).2 = [GqlQuery.getRequirement s]) ∧
    (featureRefTest s = false → requirementRefTest s = false →
      handleGetRecord client (some s) =
        (Except.error ⟨McpErrorCode.InvalidParams,
          "Invalid reference number format. Expected DEVELOP-123 or ADT-123-1"⟩, [])) ∧
    (featureRefTest s = true → client (GqlQuery.getFeature s) = Except.ok none →
      (handleGetRecord client (some s)).1 =
        Except.ok ("No record found for reference " ++ s)) ∧
    (featureRefTest s = false → requirementRefTest s = true →
      client (GqlQuery.getRequirement s) = Except.ok none →
      (handleGetRecord client (some s)).1 =
        Except.ok ("No record found for reference " ++ s)) := by
  have hcond : optTruthy (some s) = true := by
    simp [optTruthy, hs]
  refine ⟨?_, ?_, ?_, ?_, ?_⟩
  · intro hf
    cases hc : client (GqlQuery.getFeature s) <;>
      simp [handleGetRecord, hcond, hf, hc]
  · intro hf hr
    cases hc : client (GqlQuery.getRequirement s) <;>
      simp [handleGetRecord, hcond, hf, hr, hc]
  · intro hf hr
    simp [handleGetRecord, hcond, hf, hr]
  · intro hf hc
    simp [handleGetRecord, hcond, hf, hc, renderRecordText]
  · intro hf hr hc
    simp [handleGetRecord, hcond, hf, hr, hc, renderRecordText]

theorem C1_getRecord_routing_witness :
    (handleGetRecord (fun _ => Except.ok none) (some "PROJ-1-1")).2 =
      [GqlQuery.getRequirement "PROJ-1-1"] ∧
    (handleGetRecord (fun _ => Except.ok none) (some "PROJ-1-1")).1 =
      Except.ok ("No record found for reference " ++ "PROJ-1-1") := by
  have h := C1_getRecord_routing (fun _ => Except.ok none) "PROJ-1-1" (by decide)
  exact ⟨h.2.1 (by decide) (by decide),
    h.2.2.2.2 (by decide) (by decide) rfl⟩

theorem buildFeatureBody_custom_getD (fields : List (String × String)) :
    ((buildFeatureBody fields).custom_fields).getD [] =
      fields.filter (fun kv => !(standardFieldNames.contains kv.1)) := by
  unfold buildFeatureBody
  dsimp only
  by_cases h : (fields.filter (fun kv => !(standardFieldNames.contains kv.1))).isEmpty = true
  · rw [if_pos h]
    rw [List.isEmpty_iff.mp h]
    rfl
  · rw [if_neg h]
    rfl

theorem customFilter_nil_iff (fields : List (String × String)) :
    fields.filter (fun kv => !(standardFieldNames.contains kv.1)) = [] ↔
      ∀ kv ∈ fields, kv.1 ∈ standardFieldNames := by
  rw [List.filter_eq_nil_iff]
  constructor
  · intro h kv hkv
    have h2 := h kv hkv
    simpa using h2
  · intro h kv hkv
    simpa using h kv hkv

/-- Claim C3: for every non-empty fields mapping, update_feature sends the
body `feature: standard with custom_fields: extension`, where standard holds
exactly the entries whose key is in the 25-name standard set (values
verbatim), extension holds exactly the remaining entries, the custom_fields
key is present exactly when the extension part is non-empty, and the
partition is independent of the iteration order of the input. -/
theorem C3_updateFeature_partition (fields : List (String × String))
    (hne : fields ≠ []) :
    (∀ k v, (k, v) ∈ (buildFeatureBody fields).standard ↔
      ((k, v) ∈ fields ∧ k ∈ standardFieldNames)) ∧
    (∀ k v, (k, v) ∈ ((buildFeatureBody fields).custom_fields).getD [] ↔
      ((k, v) ∈ fields ∧ k ∉ standardFieldNames)) ∧
    ((buildFeatureBody fields).custom_fields = none ↔
      ∀ kv ∈ fields, kv.1 ∈ standardFieldNames) ∧
    (∀ fields2, fields.Perm fields2 →
      ((buildFeatureBody fields).standard).Perm ((buildFeatureBody fields2).standard) ∧
      (((buildFeatureBody fields).custom_fields).getD []).Perm
        (((buildFeatureBody fields2).custom_fields).getD []) ∧
      ((buildFeatureBody fields).custom_fields = none ↔
        (buildFeatureBody fields2).custom_fields = none)) ∧
    (∀ (fetchU : UpdateFeatureRequest → FetchResult String) (r : String), r ≠ "" →
      (handleUpdateFeature fetchU (some r) (some fields)).2 =
        [⟨r, buildFeatureBody fields⟩]) := by
  refine ⟨?_, ?_, ?_, ?_, ?_⟩
  · intro k v
    simp [buildFeatureBody, List.mem_filter]
  · intro k v
    rw [buildFeatureBody_custom_getD]
    simp [List.mem_filter]
  · rw [← customFilter_nil_iff]
    unfold buildFeatureBody
    dsimp only
    by_cases hemp :
        (fields.filter (fun kv => !(standardFieldNames.contains kv.1))).isEmpty = true
    · rw [if_pos hemp, List.isEmpty_iff.mp hemp]
      simp
    · rw [if_neg hemp]
      rw [List.isEmpty_iff] at hemp
      constructor
      · intro hc
        exact absurd hc (Option.some_ne_none _)
      · intro hc
        exact absurd hc hemp
  · intro fields2 hperm
    have hp := hperm.filter (fun kv => !(standardFieldNames.contains kv.1))
    have hlen := hp.length_eq
    refine ⟨hperm.filter _, ?_, ?_⟩
    · rw [buildFeatureBody_custom_getD, buildFeatureBody_custom_getD]
      exact hp
    · unfold buildFeatureBody
      dsimp only
      by_cases h1 :
          (fields.filter (fun kv => !(standardFieldNames.contains kv.1))).isEmpty = true
      · have h2 :
            (fields2.filter (fun kv => !(standardFieldNames.contains kv.1))).isEmpty = true := by
          rw [List.isEmpty_iff] at h1 ⊢
          rw [h1] at hlen
          simp only [List.length_nil] at hlen
          exact List.eq_nil_of_length_eq_zero hlen.symm
        rw [if_pos h1, if_pos h2]
      · have h2 :
            ¬(fields2.filter (fun kv => !(standardFieldNames.contains kv.1))).isEmpty = true := by
          intro hc
          apply h1
          rw [List.isEmpty_iff] at hc ⊢
          rw [hc] at hlen
          simp only [List.length_nil] at hlen
          exact List.eq_nil_of_length_eq_zero hlen
        rw [if_neg h1, if_neg h2]
        simp
  · intro fetchU r hr
    have hcond : optTruthy (some r) = true := by simp [optTruthy, hr]
    have hfs : fields.isEmpty = false := by
      cases fields with
      | nil => exact absurd rfl hne
      | cons a l => rfl
    cases hu : fetchU ⟨r, buildFeatureBody fields⟩ <;>
      simp [handleUpdateFeature, hcond, hfs, hu]

theorem C3_updateFeature_partition_witness :
    (handleUpdateFeature (fun _ => FetchResult.success "ok")
      (some "PROJ-1") (some [("name", "x"), ("go_live_date", "d")])).2 =
      [⟨"PROJ-1", buildFeatureBody [("name", "x"), ("go_live_date", "d")]⟩] :=
  (C3_updateFeature_partition [("name", "x"), ("go_live_date", "d")]
    (by decide)).2.2.2.2 (fun _ => FetchResult.success "ok") "PROJ-1" (by decide)

/-- Claim C4: every update_feature call whose fields argument is missing or
has zero keys fails with an InvalidParams error before any network request
is issued (the request trace is empty, so the partition step is never
reached); with a present reference the error is the fields-specific one. -/
theorem C4_updateFeature_emptyFields
    (fetchU : UpdateFeatureRequest → FetchResult String)
    (reference : Option String) (fields : Option (List (String × String)))
    (h : fields = none ∨ fields = some []) :
    (∃ m, handleUpdateFeature fetchU reference fields =
      (Except.error ⟨McpErrorCode.InvalidParams, m⟩, [])) ∧
    (optTruthy reference = true →
      handleUpdateFeature fetchU reference fields =
        (Except.error ⟨McpErrorCode.InvalidParams,
          "Fields object is required with at least one field to update"⟩, [])) := by
  constructor
  · by_cases href : optTruthy reference = true
    · rcases h with h | h <;> subst h <;>
        exact ⟨"Fields object is required with at least one field to update",
          by simp [handleUpdateFeature, href]⟩
    · have href2 : optTruthy reference = false := by
        cases hx : optTruthy reference
        · rfl
        · exact absurd hx href
      exact ⟨"Reference number is required", by simp [handleUpdateFeature, href2]⟩
  · intro href
    rcases h with h | h <;> subst h <;> simp [handleUpdateFeature, href]

theorem C4_updateFeature_emptyFields_witness :
    handleUpdateFeature (fun _ => FetchResult.success "ok") (some "PROJ-1") (some []) =
      (Except.error ⟨McpErrorCode.InvalidParams,
        "Fields object is required with at least one field to update"⟩, []) :=
  (C4_updateFeature_emptyFields (fun _ => FetchResult.success "ok")
    (some "PROJ-1") (some []) (Or.inr rfl)).2 (by decide)

/-- Claim C9: the update_release operation rejects a missing reference or an
empty fields mapping with InvalidParams before any request, and for a
non-empty fields mapping issues exactly one PUT to /api/v1/releases/ with
body `release: fields`, returning `{message, release}` on success. -/
theorem C9_updateRelease_contract :
    (∀ (fetchR : UpdateReleaseRequest → FetchResult String)
        (reference : Option String) (fields : Option (List (String × String))),
      optTruthy reference = false →
      handleUpdateRelease fetchR reference fields =
        (Except.error ⟨McpErrorCode.InvalidParams,
          "Release reference number is required"⟩, [])) ∧
    (∀ (fetchR : UpdateReleaseRequest → FetchResult String)
        (reference : Option String) (fields : Option (List (String × String))),
      optTruthy reference = true → (fields = none ∨ fields = some []) →
      handleUpdateRelease fetchR reference fields =
        (Except.error ⟨McpErrorCode.InvalidParams,
          "Fields object is required with at least one field to update"⟩, [])) ∧
    (∀ (fetchR : UpdateReleaseRequest → FetchResult String)
        (s : String) (fs : List (String × String)) (body : String),
      s ≠ "" → fs ≠ [] →
      fetchR ⟨"PUT", "/api/v1/releases/" ++ s, fs⟩ = FetchResult.success body →
      handleUpdateRelease fetchR (some s) (some fs) =
        (Except.ok ⟨"Release updated successfully", body⟩,
          [⟨"PUT", "/api/v1/releases/" ++ s, fs⟩])) := by
  refine ⟨?_, ?_, ?_⟩
  · intro fetchR reference fields href
    simp [handleUpdateRelease, href]
  · intro fetchR reference fields href h
    rcases h with h | h <;> subst h <;> simp [handleUpdateRelease, href]
  · intro fetchR s fs body hs hfs hF
    have hcond : optTruthy (some s) = true := by simp [optTruthy, hs]
    have hemp : fs.isEmpty = false := by
      cases fs with
      | nil => exact absurd rfl hfs
      | cons a l => rfl
    simp [handleUpdateRelease, hcond, hemp, hF]

theorem C9_updateRelease_contract_witness :
    handleUpdateRelease
      (fun _ => FetchResult.success "releaseJson")
      (some "PROJ-R-1") (some [("start_date", "2024-02-01")]) =
      (Except.ok ⟨"Release updated successfully", "releaseJson"⟩,
        [⟨"PUT", "/api/v1/releases/" ++ "PROJ-R-1", [("start_date", "2024-02-01")]⟩]) :=
  C9_updateRelease_contract.2.2 (fun _ => FetchResult.success "releaseJson")
    "PROJ-R-1" [("start_date", "2024-02-01")] "releaseJson"
    (by decide) (by decide) rfl

theorem pageLoop_succ {α : Type} (fetch : Nat → FetchResult (RestPage α))
    (fuel currentPage totalPages : Nat) (acc : List α) (trace : List Nat) :
    pageLoop fetch (fuel + 1) currentPage totalPages acc trace =
      if currentPage ≤ totalPages then
        match fetch currentPage with
        | FetchResult.thrown t => some (Except.error t, trace ++ [currentPage])
        | FetchResult.failure st sx _ =>
            some (Except.error (JsThrow.jsError (restErrMsg st sx)), trace ++ [currentPage])
        | FetchResult.success body =>
            pageLoop fetch fuel (currentPage + 1)
              (match body.pagination with
                | none => totalPages
                | some p => jsOrOne p)
              (acc ++ body.items.getD []) (trace ++ [currentPage])
      else some (Except.ok acc, trace) := rfl

theorem pageLoop_ok_length {α : Type} (fetch : Nat → FetchResult (RestPage α)) :
    ∀ (fuel currentPage totalPages : Nat) (acc : List α) (trace : List Nat)
      (res : List α) (trace2 : List Nat),
      pageLoop fetch fuel currentPage totalPages acc trace =
        some (Except.ok res, trace2) →
      ∃ suf, trace2 = trace ++ suf ∧
        res.length = acc.length + (suf.map (fun p => pageItems (fetch p))).sum := by
  intro fuel
  induction fuel with
  | zero =>
    intro currentPage totalPages acc trace res trace2 h
    exact absurd h (by simp [pageLoop])
  | succ fuel ih =>
    intro currentPage totalPages acc trace res trace2 h
    rw [pageLoop_succ] at h
    by_cases hcp : currentPage ≤ totalPages
    · rw [if_pos hcp] at h
      cases hftch : fetch currentPage with
      | thrown t =>
        rw [hftch] at h
        simp at h
      | failure st sx bd =>
        rw [hftch] at h
        simp at h
      | success body =>
        rw [hftch] at h
        obtain ⟨suf, hsuf, hlen⟩ := ih _ _ _ _ _ _ h
        refine ⟨currentPage :: suf, ?_, ?_⟩
        · simp [hsuf]
        · rw [hlen, List.length_append, List.map_cons, List.sum_cons, hftch]
          simp [pageItems]
          omega
    · rw [if_neg hcp] at h
      simp only [Option.some.injEq, Prod.mk.injEq] at h
      obtain ⟨h1, h2⟩ := h
      have hres : acc = res := by injection h1
      refine ⟨[], by simp [h2.symm], ?_⟩
      simp [← hres]

/-- Claim C5: list_features_in_release starts at page 1 and loops while the
page number stays within the declared total-page count; the reported
total_count is the number of items actually accumulated (the sum of the
per-page item counts over the pages fetched), never a count claimed by a
single page; with every page declaring 3 total pages and one item, exactly
3 fetches are issued and 3 items returned; and a first response declaring
total-page count 1 yields exactly one fetch regardless of perPage. -/
theorem C5_listFeatures_pagination :
    (∀ (fetchF : Nat → Nat → FetchResult (RestPage String)) (rr : String)
        (pp : Option Nat) (fuel : Nat) (res : ListFeaturesResult) (tr : List Nat),
      rr ≠ "" →
      handleListFeaturesInRelease fetchF (some rr) pp fuel = some (Except.ok res, tr) →
      res.total_count = (tr.map (fun p => pageItems (fetchF p (pp.getD 100)))).sum ∧
      res.total_count = res.features.length) ∧
    (handleListFeaturesInRelease backend333 (some "PROJ-R-1") none 10 =
      some (Except.ok ⟨3, ["x", "x", "x"]⟩, [1, 2, 3])) ∧
    (∀ (fetchF : Nat → Nat → FetchResult (RestPage String)) (rr : String)
        (pp : Option Nat) (b : RestPage String) (f : Nat),
      rr ≠ "" →
      fetchF 1 (pp.getD 100) = FetchResult.success b →
      b.pagination = some (some 1) →
      handleListFeaturesInRelease fetchF (some rr) pp (f + 2) =
        some (Except.ok ⟨(b.items.getD []).length, b.items.getD []⟩, [1])) := by
  refine ⟨?_, by rfl, ?_⟩
  · intro fetchF rr pp fuel res tr hrr hEq
    have hcond : optTruthy (some rr) = true := by simp [optTruthy, hrr]
    simp only [handleListFeaturesInRelease, hcond, Bool.not_true] at hEq
    cases hpl : pageLoop (fun p => fetchF p (pp.getD 100)) fuel 1 1 [] [] with
    | none =>
      rw [hpl] at hEq
      simp at hEq
    | some pr =>
      obtain ⟨exc, tr2⟩ := pr
      cases exc with
      | error t =>
        rw [hpl] at hEq
        simp at hEq
      | ok allF =>
        rw [hpl] at hEq
        have hEq2 : (some (Except.ok (⟨allF.length, allF⟩ : ListFeaturesResult), tr2) :
            Option (Except McpError ListFeaturesResult × List Nat)) =
            some (Except.ok res, tr) := hEq
        simp only [Option.some.injEq, Prod.mk.injEq, Except.ok.injEq] at hEq2
        obtain ⟨hres, htr⟩ := hEq2
        obtain ⟨suf, hsuf, hlen⟩ := pageLoop_ok_length _ fuel 1 1 [] [] allF tr2 hpl
        subst htr
        rw [← hres]
        simp only [List.nil_append] at hsuf
        subst hsuf
        constructor
        · simpa using hlen
        · rfl
  · intro fetchF rr pp b f hrr h1 hpag
    have hcond : optTruthy (some rr) = true := by simp [optTruthy, hrr]
    have e2 : f + 2 = (f + 1) + 1 := rfl
    have hloop : pageLoop (fun p => fetchF p (pp.getD 100)) (f + 2) 1 1 [] [] =
        some (Except.ok (b.items.getD []), [1]) := by
      rw [e2, pageLoop_succ, if_pos (by omega : (1 : Nat) ≤ 1)]
      have hj : jsOrOne (some 1) = 1 := rfl
      simp [h1, hpag, hj, pageLoop_succ]
    simp [handleListFeaturesInRelease, hcond, hloop]

theorem C5_listFeatures_pagination_witness :
    ({ total_count := 3, features := ["x", "x", "x"] } : ListFeaturesResult).total_count =
      ([1, 2, 3].map (fun p => pageItems (backend333 p ((none : Option Nat).getD 100)))).sum :=
  (C5_listFeatures_pagination.1 backend333 "PROJ-R-1" none 10
    ⟨3, ["x", "x", "x"]⟩ [1, 2, 3] (by decide) C5_listFeatures_pagination.2.1).1

/-- Counterexample to claim C6: against backendOmitPag, whose second
response omits the pagination object (and with it the total-page count),
the loop does not terminate after that second fetch as the claim requires —
the previously declared count 3 stays in effect and a third fetch is
issued. -/
theorem C6_counterexample :
    handleListFeaturesInRelease backendOmitPag (some "PROJ-R-1") none 10 =
      some (Except.ok ⟨3, ["a", "b", "b"]⟩, [1, 2, 3]) ∧
    ¬(∃ r, handleListFeaturesInRelease backendOmitPag (some "PROJ-R-1") none 10 =
        some (r, [1, 2])) := by
  constructor
  · rfl
  · rintro ⟨r, h⟩
    have h0 : handleListFeaturesInRelease backendOmitPag (some "PROJ-R-1") none 10 =
        some (Except.ok ⟨3, ["a", "b", "b"]⟩, [1, 2, 3]) := rfl
    rw [h0] at h
    simp at h

/-- Claim C6 as amended: the total-page count is read fresh from a response
exactly when that response carries a pagination object (total_pages 0 or
absent inside it defaulting to 1, which ends the loop after that fetch);
a response without a pagination object leaves the previously declared
count in effect; and a first response carrying total_pages 0, or an absent
total_pages, or no pagination object at all, yields exactly one fetch. -/
theorem C6_totalPages_amended :
    (∀ (fetchF : Nat → FetchResult (RestPage String))
        (f currentPage totalPages : Nat) (acc : List String) (tr : List Nat)
        (b : RestPage String) (p : Option Nat),
      1 ≤ currentPage → currentPage ≤ totalPages →
      fetchF currentPage = FetchResult.success b →
      b.pagination = some p → jsOrOne p = 1 →
      pageLoop fetchF (f + 2) currentPage totalPages acc tr =
        some (Except.ok (acc ++ b.items.getD []), tr ++ [currentPage])) ∧
    (∀ (fetchF : Nat → FetchResult (RestPage String))
        (f currentPage totalPages : Nat) (acc : List String) (tr : List Nat)
        (b : RestPage String),
      currentPage ≤ totalPages →
      fetchF currentPage = FetchResult.success b →
      b.pagination = none →
      pageLoop fetchF (f + 1) currentPage totalPages acc tr =
        pageLoop fetchF f (currentPage + 1) totalPages
          (acc ++ b.items.getD []) (tr ++ [currentPage])) ∧
    (jsOrOne (some 0) = 1 ∧ jsOrOne none = 1) ∧
    (∀ (fetchF : Nat → Nat → FetchResult (RestPage String)) (rr : String)
        (pp : Option Nat) (b : RestPage String) (f : Nat),
      rr ≠ "" →
      fetchF 1 (pp.getD 100) = FetchResult.success b →
      (b.pagination = some (some 0) ∨ b.pagination = some none ∨ b.pagination = none) →
      handleListFeaturesInRelease fetchF (some rr) pp (f + 2) =
        some (Except.ok ⟨(b.items.getD []).length, b.items.getD []⟩, [1])) := by
  refine ⟨?_, ?_, ⟨rfl, rfl⟩, ?_⟩
  · intro fetchF f currentPage totalPages acc tr b p h1cp hcp hft hpag hj
    have e2 : f + 2 = (f + 1) + 1 := rfl
    rw [e2, pageLoop_succ, if_pos hcp]
    simp only [hft, hpag, hj]
    rw [pageLoop_succ, if_neg (by omega : ¬(currentPage + 1 ≤ 1))]
  · intro fetchF f currentPage totalPages acc tr b hcp hft hpag
    rw [pageLoop_succ, if_pos hcp]
    simp only [hft, hpag]
  · intro fetchF rr pp b f hrr h1 hpag
    have hcond : optTruthy (some rr) = true := by simp [optTruthy, hrr]
    have e2 : f + 2 = (f + 1) + 1 := rfl
    have hloop : pageLoop (fun p => fetchF p (pp.getD 100)) (f + 2) 1 1 [] [] =
        some (Except.ok (b.items.getD []), [1]) := by
      rw [e2, pageLoop_succ, if_pos (le_refl 1)]
      rcases hpag with h | h | h
      · have hj : jsOrOne (some 0) = 1 := rfl
        simp [h1, h, hj, pageLoop_succ]
      · have hj : jsOrOne (none : Option Nat) = 1 := rfl
        simp [h1, h, hj, pageLoop_succ]
      · simp [h1, h, pageLoop_succ]
    simp [handleListFeaturesInRelease, hcond, hloop]

theorem C6_totalPages_amended_witness :
    handleListFeaturesInRelease
      (fun _ _ => FetchResult.success ⟨some ["a"], some (some 0)⟩)
      (some "PROJ-R-1") none 2 =
      some (Except.ok ⟨1, ["a"]⟩, [1]) := by
  have h := C6_totalPages_amended.2.2.2
    (fun _ _ => FetchResult.success ⟨some ["a"], some (some 0)⟩)
    "PROJ-R-1" none ⟨some ["a"], some (some 0)⟩ 0 (by decide) rfl (Or.inl rfl)
  exact h

/-- Claim C7: in every multi-page listing (list_features_in_release and
both loops of list_releases) a failing fetch — non-success status or
thrown transport error — on any page aborts the whole operation at once
with a single error, for every accumulator state (items gathered from
earlier pages are discarded, never returned). -/
theorem C7_pagination_all_or_nothing :
    (∀ (fetchF : Nat → FetchResult (RestPage String))
        (f currentPage totalPages : Nat) (acc : List String) (tr : List Nat)
        (st : Nat) (sx bd : String),
      currentPage ≤ totalPages →
      fetchF currentPage = FetchResult.failure st sx bd →
      pageLoop fetchF (f + 1) currentPage totalPages acc tr =
        some (Except.error (JsThrow.jsError (restErrMsg st sx)), tr ++ [currentPage])) ∧
    (∀ (fetchF : Nat → FetchResult (RestPage String))
        (f currentPage totalPages : Nat) (acc : List String) (tr : List Nat)
        (t : JsThrow),
      currentPage ≤ totalPages →
      fetchF currentPage = FetchResult.thrown t →
      pageLoop fetchF (f + 1) currentPage totalPages acc tr =
        some (Except.error t, tr ++ [currentPage])) ∧
    (∀ (fetchF : Nat → Nat → FetchResult (RestPage String)) (rr : String)
        (pp : Option Nat) (fuel : Nat) (t : JsThrow) (tr : List Nat),
      rr ≠ "" →
      pageLoop (fun p => fetchF p (pp.getD 100)) fuel 1 1 [] [] =
        some (Except.error t, tr) →
      handleListFeaturesInRelease fetchF (some rr) pp fuel =
        some (Except.error (catchToMcp "Failed to list features in release: " t), tr)) ∧
    (∀ (fetchP : Nat → FetchResult (RestPage Product))
        (fetchR : String → Nat → FetchResult (RestPage ReleaseObj))
        (wp : String) (nm : Option String) (fuel : Nat) (t : JsThrow) (trP : List Nat),
      wp ≠ "" →
      pageLoop fetchP fuel 1 1 [] [] = some (Except.error t, trP) →
      handleListReleases fetchP fetchR (some wp) nm fuel =
        some (Except.error (catchToMcp "Failed to list releases: " t), trP, [])) ∧
    (∀ (fetchP : Nat → FetchResult (RestPage Product))
        (fetchR : String → Nat → FetchResult (RestPage ReleaseObj))
        (wp : String) (nm : Option String) (fuel : Nat) (t : JsThrow)
        (prods : List Product) (trP : List Nat) (product : Product) (trR : List Nat),
      wp ≠ "" →
      pageLoop fetchP fuel 1 1 [] [] = some (Except.ok prods, trP) →
      prods.find? (fun p => pfxMatches p wp) = some product →
      pageLoop (fetchR product.id) fuel 1 1 [] [] = some (Except.error t, trR) →
      handleListReleases fetchP fetchR (some wp) nm fuel =
        some (Except.error (catchToMcp "Failed to list releases: " t), trP, trR)) := by
  refine ⟨?_, ?_, ?_, ?_, ?_⟩
  · intro fetchF f currentPage totalPages acc tr st sx bd hcp hft
    rw [pageLoop_succ, if_pos hcp]
    simp only [hft]
  · intro fetchF f currentPage totalPages acc tr t hcp hft
    rw [pageLoop_succ, if_pos hcp]
    simp only [hft]
  · intro fetchF rr pp fuel t tr hrr hloop
    have hcond : optTruthy (some rr) = true := by simp [optTruthy, hrr]
    simp [handleListFeaturesInRelease, hcond, hloop]
  · intro fetchP fetchR wp nm fuel t trP hwp hloop
    have hcond : optTruthy (some wp) = true := by simp [optTruthy, hwp]
    simp [handleListReleases, hcond, hloop]
  · intro fetchP fetchR wp nm fuel t prods trP product trR hwp hP hfind hR
    have hcond : optTruthy (some wp) = true := by simp [optTruthy, hwp]
    simp [handleListReleases, hcond, hP, hfind, hR]

theorem C7_pagination_all_or_nothing_witness :
    handleListFeaturesInRelease backendFailPage2 (some "PROJ-R-1") none 10 =
      some (Except.error (catchToMcp "Failed to list features in release: "
        (JsThrow.jsError (restErrMsg 500 "Internal Server Error"))), [1, 2]) :=
  C7_pagination_all_or_nothing.2.2.1 backendFailPage2 "PROJ-R-1" none 10
    (JsThrow.jsError (restErrMsg 500 "Internal Server Error")) [1, 2]
    (by decide) (by rfl)

/-- Claim C8: every operation wraps a backend or transport failure once at
its boundary into an InternalError whose message is the operation prefix
followed by the original message, while a failure already shaped as the
tool-protocol error (McpError) is rethrown unchanged, never double-wrapped;
this holds for each of the eight handlers with a throwing backend. -/
theorem C8_error_wrapping :
    (∀ (pfx : String) (e : McpError), catchToMcp pfx (JsThrow.mcp e) = e) ∧
    (∀ (pfx m : String),
      catchToMcp pfx (JsThrow.jsError m) = ⟨McpErrorCode.InternalError, pfx ++ m⟩) ∧
    (∀ (t : JsThrow) (s : String), s ≠ "" → featureRefTest s = true →
      (handleGetRecord (fun _ => Except.error t) (some s)).1 =
        Except.error (catchToMcp "Failed to fetch record: " t)) ∧
    (∀ (t : JsThrow) (s : String) (ip : Option Bool), s ≠ "" → noteRefTest s = true →
      handleGetPage (fun _ _ => Except.error t) (some s) ip =
        Except.error (catchToMcp "Failed to fetch page: " t)) ∧
    (∀ (t : JsThrow) (q : String) (st : Option String), q ≠ "" →
      handleSearchDocuments (fun _ _ => Except.error t) (some q) st =
        Except.error (catchToMcp "Failed to search documents: " t)) ∧
    (∀ (t : JsThrow),
      handleIntrospectFeature (fun _ => Except.error t) =
        Except.error (catchToMcp "Failed to introspect: " t)) ∧
    (∀ (t : JsThrow) (s : String), s ≠ "" →
      handleGetRecordRest (fun _ => FetchResult.thrown t) (some s) =
        Except.error (catchToMcp "Failed to fetch record via REST: " t)) ∧
    (∀ (t : JsThrow) (s : String) (kv : String × String) (fs : List (String × String)),
      s ≠ "" →
      (handleUpdateFeature (fun _ => FetchResult.thrown t) (some s) (some (kv :: fs))).1 =
        Except.error (catchToMcp "Failed to update feature: " t)) ∧
    (∀ (t : JsThrow) (rr : String) (pp : Option Nat) (f : Nat), rr ≠ "" →
      handleListFeaturesInRelease (fun _ _ => FetchResult.thrown t) (some rr) pp (f + 1) =
        some (Except.error (catchToMcp "Failed to list features in release: " t), [1])) ∧
    (∀ (t : JsThrow) (wp : String) (nm : Option String) (f : Nat), wp ≠ "" →
      handleListReleases (fun _ => FetchResult.thrown t) (fun _ _ => FetchResult.thrown t)
        (some wp) nm (f + 1) =
        some (Except.error (catchToMcp "Failed to list releases: " t), [1], [])) := by
  refine ⟨fun _ _ => rfl, fun _ _ => rfl, ?_, ?_, ?_, fun t => rfl, ?_, ?_, ?_, ?_⟩
  · intro t s hs hf
    have hcond : optTruthy (some s) = true := by simp [optTruthy, hs]
    simp [handleGetRecord, hcond, hf]
  · intro t s ip hs hn
    have hcond : optTruthy (some s) = true := by simp [optTruthy, hs]
    simp [handleGetPage, hcond, hn]
  · intro t q st hq
    have hcond : optTruthy (some q) = true := by simp [optTruthy, hq]
    simp [handleSearchDocuments, hcond]
  · intro t s hs
    have hcond : optTruthy (some s) = true := by simp [optTruthy, hs]
    simp [handleGetRecordRest, hcond]
  · intro t s kv fs hs
    have hcond : optTruthy (some s) = true := by simp [optTruthy, hs]
    simp [handleUpdateFeature, hcond]
  · intro t rr pp f hrr
    have hcond : optTruthy (some rr) = true := by simp [optTruthy, hrr]
    have hloop : pageLoop (fun p => (fun _ _ => FetchResult.thrown t) p (pp.getD 100))
        (f + 1) 1 1 ([] : List String) [] = some (Except.error t, [1]) := by
      rw [pageLoop_succ, if_pos (le_refl 1)]
      rfl
    simp [handleListFeaturesInRelease, hcond, hloop]
  · intro t wp nm f hwp
    have hcond : optTruthy (some wp) = true := by simp [optTruthy, hwp]
    have hloop : pageLoop (fun _ => FetchResult.thrown t) (f + 1) 1 1
        ([] : List Product) [] = some (Except.error t, [1]) := by
      rw [pageLoop_succ, if_pos (le_refl 1)]
      rfl
    simp [handleListReleases, hcond, hloop]

theorem C8_error_wrapping_witness :
    (handleGetRecord
      (fun _ => Except.error (JsThrow.mcp ⟨McpErrorCode.InvalidRequest, "Custom MCP error"⟩))
      (some "PROJ-1")).1 =
      Except.error ⟨McpErrorCode.InvalidRequest, "Custom MCP error"⟩ ∧
    (handleGetRecord (fun _ => Except.error (JsThrow.jsError "Network error"))
      (some "PROJ-1")).1 =
      Except.error ⟨McpErrorCode.InternalError, "Failed to fetch record: Network error"⟩ := by
  constructor
  · exact C8_error_wrapping.2.2.1
      (JsThrow.mcp ⟨McpErrorCode.InvalidRequest, "Custom MCP error"⟩) "PROJ-1"
      (by decide) (by decide)
  · have h := C8_error_wrapping.2.2.1 (JsThrow.jsError "Network error") "PROJ-1"
      (by decide) (by decide)
    rw [h]
    rfl

theorem pageLoop_respEquiv {α : Type} (f g : Nat → FetchResult (RestPage α))
    (h : ∀ p, respEquiv (f p) (g p)) :
    ∀ (fuel currentPage totalPages : Nat) (acc : List α) (trace : List Nat),
      pageLoop f fuel currentPage totalPages acc trace =
        pageLoop g fuel currentPage totalPages acc trace := by
  intro fuel
  induction fuel with
  | zero => intro _ _ _ _; rfl
  | succ fuel ih =>
    intro currentPage totalPages acc trace
    rw [pageLoop_succ, pageLoop_succ]
    by_cases hcp : currentPage ≤ totalPages
    · rw [if_pos hcp, if_pos hcp]
      have hp := h currentPage
      cases hf : f currentPage with
      | success b1 =>
        cases hg : g currentPage with
        | success b2 =>
          rw [hf, hg] at hp
          have hp2 : b1.items.getD [] = b2.items.getD [] ∧
              b1.pagination = b2.pagination := hp
          simp only [hp2.1, hp2.2]
          exact ih _ _ _ _
        | failure st2 sx2 bd2 =>
          rw [hf, hg] at hp
          exact hp.elim
        | thrown t2 =>
          rw [hf, hg] at hp
          exact hp.elim
      | failure st1 sx1 bd1 =>
        cases hg : g currentPage with
        | success b2 =>
          rw [hf, hg] at hp
          exact hp.elim
        | failure st2 sx2 bd2 =>
          rw [hf, hg] at hp
          have hp2 : st1 = st2 ∧ sx1 = sx2 ∧ bd1 = bd2 := hp
          simp only [hp2.1, hp2.2.1]
        | thrown t2 =>
          rw [hf, hg] at hp
          exact hp.elim
      | thrown t1 =>
        cases hg : g currentPage with
        | success b2 =>
          rw [hf, hg] at hp
          exact hp.elim
        | failure st2 sx2 bd2 =>
          rw [hf, hg] at hp
          exact hp.elim
        | thrown t2 =>
          rw [hf, hg] at hp
          have hp2 : t1 = t2 := hp
          rw [hp2]
    · rw [if_neg hcp, if_neg hcp]

/-- Claim C10: in list_features_in_release a successful page response
without a features array contributes zero items and neither fails the
operation nor changes the continuation decision or the final total_count —
the handler cannot distinguish a missing array from an empty one, and it is
total over responses with missing features or pagination fields. -/
theorem C10_missing_features_total :
    (∀ (f g : Nat → Nat → FetchResult (RestPage String)) (reference : Option String)
        (pp : Option Nat) (fuel : Nat),
      (∀ p, respEquiv (f p (pp.getD 100)) (g p (pp.getD 100))) →
      handleListFeaturesInRelease f reference pp fuel =
        handleListFeaturesInRelease g reference pp fuel) ∧
    (handleListFeaturesInRelease (fun _ _ => FetchResult.success ⟨none, some (some 1)⟩)
        (some "PROJ-R-1") none 2 = some (Except.ok ⟨0, []⟩, [1])) ∧
    (handleListFeaturesInRelease (fun _ _ => FetchResult.success ⟨none, none⟩)
        (some "PROJ-R-1") none 2 = some (Except.ok ⟨0, []⟩, [1])) := by
  refine ⟨?_, by rfl, by rfl⟩
  intro f g reference pp fuel hfg
  by_cases hc : optTruthy reference = true
  · simp only [handleListFeaturesInRelease, hc, Bool.not_true]
    rw [pageLoop_respEquiv (fun p => f p (pp.getD 100)) (fun p => g p (pp.getD 100))
      hfg fuel 1 1 [] []]
  · have hc2 : optTruthy reference = false := by
      cases hx : optTruthy reference
      · rfl
      · exact absurd hx hc
    simp [handleListFeaturesInRelease, hc2]

theorem C10_missing_features_total_witness :
    handleListFeaturesInRelease (fun _ _ => FetchResult.success ⟨none, some (some 1)⟩)
        (some "PROJ-R-1") none 2 =
      handleListFeaturesInRelease (fun _ _ => FetchResult.success ⟨some [], some (some 1)⟩)
        (some "PROJ-R-1") none 2 :=
  C10_missing_features_total.1 (fun _ _ => FetchResult.success ⟨none, some (some 1)⟩)
    (fun _ _ => FetchResult.success ⟨some [], some (some 1)⟩)
    (some "PROJ-R-1") none 2 (fun _ => ⟨rfl, rfl⟩)
